import Mathlib

/-!
Verification development for the vault-master-curator repository
(`src/interactive_file_manager.py`).  The Python source is shallowly
embedded below: the SQLite-backed store becomes explicit state passing over
a list of rows, interactive prompts become explicit string parameters, and
optional third-party extraction libraries become explicit outcome
datatypes.  All definitions are executable.
-/

namespace Vault

/-! ## Python string primitives

The source manipulates `str` values with `.strip()`, `.lower()`, slicing,
`.split`, `.replace` and substring tests.  These are modelled for the
ASCII range used by the program. -/

/-- The characters Python `str.strip()` removes (ASCII scope). -/
def isPySpace (c : Char) : Bool :=
  c == ' ' || c == '\t' || c == '\n' || c == '\r' || c == '\x0b' || c == '\x0c'

/-- Python `s.strip()` (whitespace stripping, ASCII scope). -/
def pyStrip (s : String) : String :=
  ⟨((s.data.dropWhile isPySpace).reverse.dropWhile isPySpace).reverse⟩

/-- Python `s.lower()` (ASCII scope). -/
def pyLower (s : String) : String := ⟨s.data.map Char.toLower⟩

/-- Python slicing `s[:n]` (by characters, as Python text-mode strings). -/
def pyTake (n : Nat) (s : String) : String := ⟨s.data.take n⟩

/-- Python `len(s)` (in characters). -/
def pyLen (s : String) : Nat := s.data.length

/-- Python `s.startswith(pre)`, specialised to what the source needs. -/
def pyStartsWith (s pre : String) : Bool := s.data.take pre.data.length == pre.data

/-- Python `s.replace(c, "")` for a one-character pattern: removes every
occurrence of `c`. -/
def pyRemoveAll (c : Char) (s : String) : String := ⟨s.data.filter (fun a => !(a == c))⟩

/-- Splitting a character list at every occurrence of `c` (the character
itself is dropped); never returns the empty list. -/
def splitAtChar (c : Char) : List Char → List (List Char)
  | [] => [[]]
  | a :: as =>
    match splitAtChar c as with
    | [] => if a == c then [[], []] else [[a]]
    | h :: t => if a == c then [] :: h :: t else (a :: h) :: t

/-- Python `s.split(sep)` for a one-character separator. -/
def pySplitChar (c : Char) (s : String) : List String :=
  (splitAtChar c s.data).map (fun l => ⟨l⟩)

/-- Python `sep.join(parts)`. -/
def pyJoin : String → List String → String
  | _, [] => ""
  | _, [x] => x
  | sep, x :: y :: t => x ++ sep ++ pyJoin sep (y :: t)

/-- One step of the substring matcher: does the needle occur at the head of
the haystack? -/
def matchesAt : List Char → List Char → Bool
  | [], _ => true
  | _ :: _, [] => false
  | a :: as, b :: bs => a == b && matchesAt as bs

/-- Does the needle occur anywhere in the haystack? -/
def occursIn : List Char → List Char → Bool
  | n, [] => matchesAt n []
  | n, b :: bs => matchesAt n (b :: bs) || occursIn n bs

/-- Python `needle in hay` on strings (substring containment). -/
def strContains (hay needle : String) : Bool := occursIn needle.toList hay.toList

/-- Python `any(w in hay for w in ws)`. -/
def containsAny (hay : String) (ws : List String) : Bool :=
  ws.any (fun w => strContains hay w)

/-- Python `a or b` on strings: `b` when `a` is the empty (falsy) string. -/
def pyOr (a b : String) : String := if a = "" then b else a

/-- Truthiness of an optional-string argument, as Python `if path:` sees it
(`None` and `""` are falsy). -/
def truthyStr : Option String → Bool
  | none => false
  | some s => !(s == "")

/-! ## Metadata store (`VaultDatabase`)

One SQLite table `files(id INTEGER PRIMARY KEY AUTOINCREMENT, description,
tags, status, content_type, sensitivity, custom_fields, date_created,
filename, path TEXT UNIQUE)`.  The store state is the list of rows plus
the next AUTOINCREMENT rowid (strictly increasing, starting at 1). -/

/-- One row of the `files` table. -/
structure FileRow where
  id : Nat
  description : String
  tags : String
  status : String
  content_type : String
  sensitivity : String
  custom_fields : String
  date_created : String
  filename : String
  path : String
  deriving DecidableEq, Repr

/-- The nine-field tuple `file_data` passed to `add_file_metadata`
(everything but the auto-assigned id). -/
structure FileData where
  description : String
  tags : String
  status : String
  content_type : String
  sensitivity : String
  custom_fields : String
  date_created : String
  filename : String
  path : String
  deriving DecidableEq, Repr

/-- State of the SQLite database file. -/
structure VaultDB where
  nextId : Nat
  rows : List FileRow
  deriving DecidableEq, Repr

/-- A freshly created (empty) database, as `ensure_database_exists` leaves
it: no rows, AUTOINCREMENT counter at 1. -/
def VaultDB.empty : VaultDB := ⟨1, []⟩

/-- `VaultDatabase.add_file_metadata`: INSERT of the nine-field tuple.  The
UNIQUE constraint on `path` raises `sqlite3.IntegrityError` when the path
is already present; the `except` branch turns that into `None` with the
database unchanged.  On success the new rowid (`cursor.lastrowid`) is
returned. -/
def add_file_metadata (db : VaultDB) (d : FileData) : Option Nat × VaultDB :=
  if ∃ r ∈ db.rows, r.path = d.path then
    (none, db)
  else
    (some db.nextId,
     ⟨db.nextId + 1,
      db.rows ++ [⟨db.nextId, d.description, d.tags, d.status, d.content_type,
                   d.sensitivity, d.custom_fields, d.date_created, d.filename, d.path⟩]⟩)

/-- `VaultDatabase.get_file_metadata`: `SELECT * FROM files` with an
optional exact-match filter.  Python checks `if path: ... elif filename:`,
so `None` and the empty string both fall through (truthiness). -/
def get_file_metadata (db : VaultDB) (filename path : Option String) : List FileRow :=
  if truthyStr path then
    db.rows.filter (fun r => r.path == path.getD "")
  else if truthyStr filename then
    db.rows.filter (fun r => r.filename == filename.getD "")
  else
    db.rows

/-- The column names of the `files` table that hold TEXT and can be set by
an `UPDATE files SET <col>=?` statement.  This list models which column
names the SQLite engine accepts, not any check in the Python code: the
Python function performs no validation of its own (the `id` INTEGER
PRIMARY KEY column is never updated by any caller and its numeric affinity
is left out of the model). -/
def textColumns : List String :=
  ["description", "tags", "status", "content_type", "sensitivity",
   "custom_fields", "date_created", "filename", "path"]

/-- Apply `UPDATE files SET field=value` to one row. -/
def setColumn (r : FileRow) (field value : String) : FileRow :=
  if field = "description" then { r with description := value }
  else if field = "tags" then { r with tags := value }
  else if field = "status" then { r with status := value }
  else if field = "content_type" then { r with content_type := value }
  else if field = "sensitivity" then { r with sensitivity := value }
  else if field = "custom_fields" then { r with custom_fields := value }
  else if field = "date_created" then { r with date_created := value }
  else if field = "filename" then { r with filename := value }
  else if field = "path" then { r with path := value }
  else r

/-- Result of `update_file_metadata`: the SQL text the function built and
handed to `cursor.execute`, the boolean it returned, and the database
state afterwards. -/
structure UpdateOutcome where
  statement : String
  ok : Bool
  db : VaultDB
  deriving DecidableEq, Repr

/-- `VaultDatabase.update_file_metadata`: builds
`f"UPDATE files SET {field}=? WHERE id=?"` by interpolating the
caller-supplied field name unconditionally, then executes it.  A field
name that is not a column makes `execute` raise (`sqlite3.OperationalError`),
which the `except` branch converts to `False` with the database rolled
back; setting `path` to another row's path raises `IntegrityError`,
likewise caught.  A `WHERE id=?` clause that matches no row is not an
error: SQLite updates zero rows and the function still returns `True`. -/
def update_file_metadata (db : VaultDB) (fid : Nat) (field value : String) :
    UpdateOutcome :=
  let stmt := "UPDATE files SET " ++ field ++ "=? WHERE id=?"
  if textColumns.contains field then
    if field = "path" ∧ (∃ r ∈ db.rows, r.id ≠ fid ∧ r.path = value) ∧
        (∃ r ∈ db.rows, r.id = fid) then
      ⟨stmt, false, db⟩
    else
      ⟨stmt, true,
       ⟨db.nextId, db.rows.map (fun r => if r.id = fid then setColumn r field value else r)⟩⟩
  else
    ⟨stmt, false, db⟩

/-- The FileRecord field set of the data model (spec §3): the allow-list a
validated per-field updater would check against. -/
def fileRecordFields : List String := "id" :: textColumns

/-! ## Content analyzer (`InteractiveFileManager.analyze_*`)

The analyzer is parameterised by what the filesystem and the optional
extraction libraries return.  A file path appears as its `name`
(`file_path.name`) and `suffix` (`file_path.suffix`, pathlib's extension
component of the name).

Size formatting follows the source's IEEE-double evaluation exactly: the
first `size_bytes < 1024.0` comparison is Python's exact int-float
comparison, the first `size_bytes /= 1024.0` converts the integer byte
count to a double — which rounds to 53 significant bits, half-to-even,
when the count exceeds `2^53` — and every later division and comparison
is an exact exponent shift on that converted value.  `floatOfNat` below
is the exact integer value of Python's `float(size_bytes)`; it is
meaningful for counts below the double range (Python raises
`OverflowError` near `2^1024`, which is why the PB statement carries a
range hypothesis). -/

/-- A file path, reduced to the pieces the analyzer reads. -/
structure FileInfo where
  name : String
  suffix : String
  deriving DecidableEq, Repr

/-- The smallest power of two `p` (reached by doubling from the given
start) with `n < 2^53 * p`: the scale of the unit in the last place when
`n` is converted to an IEEE double.  `fuel` bounds the doubling and is
ample for every count below the double range. -/
def pow2Div : Nat → Nat → Nat → Nat
  | 0, _, p => p
  | fuel + 1, n, p =>
    if n < 9007199254740992 * p then p else pow2Div fuel n (2 * p)

/-- IEEE round-to-nearest, ties-to-even, of the mantissa `q + r / p`. -/
def roundMantissa (q r p : Nat) : Nat :=
  if 2 * r > p then q + 1 else if 2 * r < p then q
  else if q % 2 = 0 then q else q + 1

/-- The exact integer value of Python `float(n)` (conversion of a
non-negative int to an IEEE binary64 double): `n` rounded to 53
significant bits, half-to-even.  Faithful for `n` below the double range
(for `n` near `2^1024` Python raises `OverflowError` instead). -/
def floatOfNat (n : Nat) : Nat :=
  let p := pow2Div 1200 n 1
  roundMantissa (n / p) (n % p) p * p

/-- One decimal digit rendering of the exact value `num / den` with
round-half-even: Python `f"{x:.1f}"` formats the double `x` correctly
rounded from its exact binary value, ties to even. -/
def fmtOneDec (num den : Nat) : String :=
  let t := 10 * num / den
  let r := 10 * num % den
  let scaled := if 2 * r > den then t + 1 else if 2 * r < den then t
    else if t % 2 = 0 then t else t + 1
  toString (scaled / 10) ++ "." ++ toString (scaled % 10)

/-- The tail of the `human_readable_size` loop, after the byte count has
been divided by `1024.0` once (and thereby converted to a double): the
running double is the exactly representable `num / den`, each
`size_bytes /= 1024.0` multiplies the denominator (an exact exponent
shift), and each `< 1024.0` comparison is exact. -/
def hrLoop : List String → Nat → Nat → String
  | [], num, den => fmtOneDec num den ++ " PB"
  | u :: us, num, den =>
    if num < 1024 * den then fmtOneDec num den ++ " " ++ u
    else hrLoop us num (den * 1024)

/-- `InteractiveFileManager.human_readable_size`.  The `B` iteration
compares the still-unconverted integer (exactly) and formats it (its
float conversion is exact below 1024); otherwise `size_bytes /= 1024.0`
converts the count to a double — `floatOfNat` — and the loop continues
through KB..TB with PB as the last resort. -/
def human_readable_size (size_bytes : Nat) : String :=
  if size_bytes < 1024 then fmtOneDec size_bytes 1 ++ " B"
  else hrLoop ["KB", "MB", "GB", "TB"] (floatOfNat size_bytes) 1024

/-- What the PyPDF2 interaction in `analyze_pdf` can come to.  `ok` carries
`pdf_reader.metadata.title` (`none` when the metadata or title is absent)
and the first page's `extract_text()` result (`none` when there is no
page). -/
inductive PdfOutcome where
  | importError
  | failed (msg : String)
  | ok (metaTitle : Option String) (firstPageText : Option String)
  deriving DecidableEq, Repr

/-- What the python-docx interaction in `analyze_docx` can come to.  `ok`
carries `[p.text for p in doc.paragraphs]`. -/
inductive DocxOutcome where
  | importError
  | failed (msg : String)
  | ok (paragraphs : List String)
  deriving DecidableEq, Repr

/-- What `open(...).read(500)` in `analyze_text_file` can come to.  `ok`
carries at most the first 500 characters of the file. -/
inductive TextOutcome where
  | failed (msg : String)
  | ok (content : String)
  deriving DecidableEq, Repr

/-- The dictionary an `analyze_pdf` / `analyze_docx` call returns and
`analysis.update(...)` merges in. -/
structure TypeResult where
  content_preview : String
  detected_title : String
  smart_category : String
  suggested_tags : List String
  deriving DecidableEq, Repr

/-- `InteractiveFileManager.analyze_pdf`.  The result starts from the
placeholder preview, the title and preview are filled in only on a
successful (truthy) read, and `suggested_tags` is set unconditionally
after the `try` block. -/
def analyze_pdf (o : PdfOutcome) : TypeResult :=
  let base : TypeResult := ⟨"Could not read PDF.", "", "document_pdf", []⟩
  let r :=
    match o with
    | .importError =>
      { base with content_preview :=
          "NOTE: Install PyPDF2 (`pip install PyPDF2`) for PDF content preview." }
    | .failed msg => { base with content_preview := "PDF analysis failed: " ++ msg }
    | .ok metaTitle firstPageText =>
      let r1 := match metaTitle with
        | some t => if t ≠ "" then { base with detected_title := t } else base
        | none => base
      match firstPageText with
      | some text =>
        if text ≠ "" then
          { r1 with content_preview := pyTake 250 (pyStrip text) ++ "..." }
        else r1
      | none => r1
  { r with suggested_tags := ["📄 PDF", "📋 Document"] }

/-- The paragraph-accumulation loop of `analyze_docx`: a stripped
non-empty paragraph is kept while the running character count is below
300, and only kept paragraphs advance the count. -/
def docxParts : List String → Nat → List String
  | [], _ => []
  | p :: ps, count =>
    let text := pyStrip p
    if text ≠ "" ∧ count < 300 then text :: docxParts ps (count + pyLen text)
    else docxParts ps count

/-- `InteractiveFileManager.analyze_docx`.  The first paragraph becomes the
title only when non-blank and under 100 characters; `suggested_tags` is
set unconditionally after the `try` block. -/
def analyze_docx (o : DocxOutcome) : TypeResult :=
  let base : TypeResult := ⟨"Could not read DOCX.", "", "document_docx", []⟩
  let r :=
    match o with
    | .importError =>
      { base with content_preview :=
          "NOTE: Install python-docx (`pip install python-docx`) for DOCX content preview." }
    | .failed msg => { base with content_preview := "DOCX analysis failed: " ++ msg }
    | .ok paragraphs =>
      let r1 := match paragraphs with
        | [] => base
        | p0 :: _ =>
          let first_para := pyStrip p0
          if first_para ≠ "" ∧ pyLen first_para < 100 then
            { base with detected_title := first_para }
          else base
      let content_parts := docxParts paragraphs 0
      if content_parts ≠ [] then
        { r1 with content_preview := pyTake 300 (pyJoin "\n" content_parts) ++ "..." }
      else r1
  { r with suggested_tags := ["📄 Document", "💼 Business"] }

/-- The dictionary `analyze_text_file` returns: it never sets
`suggested_tags`. -/
structure TextFileResult where
  content_preview : String
  detected_title : String
  smart_category : String
  deriving DecidableEq, Repr

/-- `InteractiveFileManager.analyze_text_file`.  Only `lines[0]` — the
literal first line of the content read — is consulted for the title: a
non-blank first line starting with `#` has every `#` removed
(`str.replace('#', '')`) and is re-stripped, any other non-blank first
line is cut to 70 characters; a blank first line leaves the title
empty. -/
def analyze_text_file (o : TextOutcome) : TextFileResult :=
  match o with
  | .failed msg => ⟨"Could not read file: " ++ msg, "", "text_file"⟩
  | .ok content =>
    let lines := pySplitChar '\n' content
    let title :=
      match lines with
      | [] => ""
      | l0 :: _ =>
        if pyStrip l0 ≠ "" then
          let first_line := pyStrip l0
          if pyStartsWith first_line "#" then pyStrip (pyRemoveAll '#' first_line)
          else pyTake 70 first_line
        else ""
    ⟨pyStrip (pyTake 250 content) ++ "...", title, "text_file"⟩

/-- The `analysis` dictionary built by `analyze_file_content`. -/
structure Analysis where
  size_human : String
  modified : String
  extension : String
  content_preview : String
  detected_title : String
  smart_category : String
  suggested_tags : List String
  deriving DecidableEq, Repr

/-- The plain-text-like extensions dispatched to `analyze_text_file`. -/
def textExts : List String := [".txt", ".md", ".py", ".js", ".json", ".sh", ".sql"]

/-- `InteractiveFileManager.analyze_file_content`: the base dictionary,
`analysis.update(...)` with the type-specific analyzer chosen by the
lowercased extension, then the filename keyword scan, which runs
unconditionally after the `try` block and overwrites `smart_category` and
`suggested_tags` on the first matching keyword group. -/
def analyze_file_content (fi : FileInfo) (sizeBytes : Nat) (modified : String)
    (pdf : PdfOutcome) (docx : DocxOutcome) (text : TextOutcome) : Analysis :=
  let ext := pyLower fi.suffix
  let base : Analysis :=
    ⟨human_readable_size sizeBytes, modified, ext, "N/A", "", "unknown", []⟩
  let a :=
    if ext = ".pdf" then
      let r := analyze_pdf pdf
      { base with content_preview := r.content_preview,
                  detected_title := r.detected_title,
                  smart_category := r.smart_category,
                  suggested_tags := r.suggested_tags }
    else if ext = ".docx" ∨ ext = ".doc" then
      let r := analyze_docx docx
      { base with content_preview := r.content_preview,
                  detected_title := r.detected_title,
                  smart_category := r.smart_category,
                  suggested_tags := r.suggested_tags }
    else if textExts.contains ext then
      let r := analyze_text_file text
      { base with content_preview := r.content_preview,
                  detected_title := r.detected_title,
                  smart_category := r.smart_category }
    else base
  let filename_lower := pyLower fi.name
  if containsAny filename_lower ["research", "study", "analysis"] then
    { a with smart_category := "research_document",
             suggested_tags := ["🔬 Research", "📊 Analysis"] }
  else if containsAny filename_lower ["legal", "contract", "agreement"] then
    { a with smart_category := "legal_document",
             suggested_tags := ["⚖️ Legal", "📋 Official"] }
  else if containsAny filename_lower ["business", "plan", "proposal"] then
    { a with smart_category := "business_document",
             suggested_tags := ["💼 Business", "🎯 Strategy"] }
  else a

/-! ## Interactive workflow (`InteractiveFileManager.process_new_file`)

Every `input(...)` of the linear prompt sequence becomes one explicit
string parameter; the filesystem facts the workflow reads (resolved path,
existence, stat results) and the extraction outcomes become an explicit
context. -/

/-- The fixed tag presets of `interactive_tag_selection`. -/
def tagPresets : List (String × List String) :=
  [("1", ["📄 Document", "💼 Business"]),
   ("2", ["🔬 Research", "📊 Analysis"]),
   ("3", ["⚖️ Legal", "📋 Official"]),
   ("4", ["💻 Code", "🔧 Technical"]),
   ("5", ["🎨 Creative", "💡 Ideas"]),
   ("6", ["📝 Notes", "🤔 Personal"])]

/-- `InteractiveFileManager.interactive_tag_selection`: `choice` is the
preset prompt's input, `custom` the free-text prompt's input (read only
when `choice` is `"9"`). -/
def interactive_tag_selection (suggested_tags : List String)
    (choice custom : String) : String :=
  let c := pyStrip choice
  if c = "" ∧ suggested_tags ≠ [] then pyJoin ", " suggested_tags
  else match tagPresets.filter (fun p => p.1 = c) with
    | p :: _ => pyJoin ", " p.2
    | [] => if c = "9" then pyStrip custom else "Uncategorized"

/-- `InteractiveFileManager.smart_category_selection`: the stripped input,
or the detected category when the input is empty. -/
def smart_category_selection (detected_category inp : String) : String :=
  pyOr (pyStrip inp) detected_category

/-- The sensitivity prompt's mapping `{'1': 'public', '3': 'confidential'}`
with default `'internal'`. -/
def sensitivityOf (choice : String) : String :=
  let c := pyStrip choice
  if c = "1" then "public" else if c = "3" then "confidential" else "internal"

/-- The status prompt's mapping with default `'new'`. -/
def statusOf (choice : String) : String :=
  let c := pyStrip choice
  if c = "2" then "in_progress" else if c = "3" then "review"
  else if c = "4" then "completed" else if c = "5" then "archived" else "new"

/-- Everything `process_new_file` reads from outside the store: the
resolved path (`Path(file_path_str).resolve()`) as the file's name/suffix
plus its string form, whether it exists, the stat results, the extraction
outcomes and `datetime.now().isoformat()`. -/
structure FileCtx where
  fi : FileInfo
  pathStr : String
  pathExists : Bool
  sizeBytes : Nat
  modified : String
  pdf : PdfOutcome
  docx : DocxOutcome
  text : TextOutcome
  now : String
  deriving Repr

/-- The interactive answers consumed by one `process_new_file` run, in
prompt order. -/
structure UserInputs where
  description : String
  category : String
  tagChoice : String
  tagCustom : String
  sensChoice : String
  statusChoice : String
  notes : String
  confirm : String
  deriving Repr

/-- Observable outcome of one `process_new_file` run. -/
structure WorkflowResult where
  db : VaultDB
  missingReported : Bool
  insertCalled : Bool
  insertResult : Option Nat
  cancelled : Bool
  deriving Repr

/-- `InteractiveFileManager.process_new_file`: abort on a missing file,
analyze, collect the metadata answers, and insert only when the stripped,
lowercased confirmation input is `''`, `'y'` or `'yes'`. -/
def process_new_file (db : VaultDB) (ctx : FileCtx) (ui : UserInputs) :
    WorkflowResult :=
  if ¬ ctx.pathExists then
    ⟨db, true, false, none, false⟩
  else
    let analysis := analyze_file_content ctx.fi ctx.sizeBytes ctx.modified
      ctx.pdf ctx.docx ctx.text
    let default_desc := pyOr analysis.detected_title ctx.fi.name
    let description := pyOr (pyStrip ui.description) default_desc
    let content_type := smart_category_selection analysis.smart_category ui.category
    let tags := interactive_tag_selection analysis.suggested_tags ui.tagChoice ui.tagCustom
    let sensitivity := sensitivityOf ui.sensChoice
    let status := statusOf ui.statusChoice
    let custom_fields := pyStrip ui.notes
    if pyLower (pyStrip ui.confirm) ∈ ["", "y", "yes"] then
      let file_data : FileData := ⟨description, tags, status, content_type,
        sensitivity, custom_fields, ctx.now, ctx.fi.name, ctx.pathStr⟩
      let res := add_file_metadata db file_data
      ⟨res.2, false, true, res.1, false⟩
    else
      ⟨db, false, false, none, true⟩

/-! ## Spec-side reference definition

Used to contrast `analyze_text_file` with the spec's wording about the
detected title. -/

/-- Modelled from the spec: "first non-blank line becomes the detected
title (markdown leading `#` markers stripped)". -/
def spec_detected_title (content : String) : String :=
  match (pySplitChar '\n' content).filter (fun l => pyStrip l ≠ "") with
  | [] => ""
  | l :: _ => pyStrip ⟨(pyStrip l).data.dropWhile (fun c => c == '#')⟩

/-! ## Concrete fixtures used by the witnesses -/

/-- A concrete record payload. -/
def sampleData : FileData :=
  ⟨"Quarterly report", "📝 Notes, 🤔 Personal", "new", "text_file", "internal", "",
   "2026-01-02T10:00:00", "report.txt", "/vault/report.txt"⟩

/-- A second payload colliding with `sampleData` on `path`. -/
def sampleData2 : FileData := { sampleData with description := "Second attempt" }

/-- A store already holding `sampleData` under identifier 1. -/
def sampleDB : VaultDB :=
  ⟨2, [⟨1, sampleData.description, sampleData.tags, sampleData.status,
        sampleData.content_type, sampleData.sensitivity, sampleData.custom_fields,
        sampleData.date_created, sampleData.filename, sampleData.path⟩]⟩

/-- A concrete existing-file context. -/
def sampleCtx : FileCtx :=
  ⟨⟨"report.txt", ".txt"⟩, "/vault/report.txt", true, 1536, "2026-01-01 00:00",
   .importError, .importError, .ok "# Report Title\nbody", "2026-01-02T10:00:00"⟩

/-- The same context for a path that does not exist. -/
def sampleCtxMissing : FileCtx := { sampleCtx with pathExists := false }

/-- Concrete interactive answers declining the final confirmation. -/
def sampleInputs : UserInputs := ⟨"", "", "", "", "", "", "", "n"⟩

end Vault

namespace Vault

/-! ## Helper lemmas -/

theorem matchesAt_of_append (u v : List Char) :
    ∀ s, matchesAt (u ++ v) s = true → matchesAt u s = true := by
  induction u with
  | nil => intro s _; rfl
  | cons a as ih =>
    intro s h
    cases s with
    | nil => simp [matchesAt] at h
    | cons b bs =>
      simp only [List.cons_append, matchesAt, Bool.and_eq_true] at h ⊢
      exact ⟨h.1, ih bs h.2⟩

theorem occursIn_of_append (u v : List Char) :
    ∀ s, occursIn (u ++ v) s = true → occursIn u s = true := by
  intro s
  induction s with
  | nil =>
    cases u with
    | nil => intro _; rfl
    | cons a as => simp [occursIn, matchesAt]
  | cons b bs ih =>
    simp only [occursIn, Bool.or_eq_true]
    rintro (h | h)
    · exact Or.inl (matchesAt_of_append u v _ h)
    · exact Or.inr (ih h)

theorem strContains_of_prefix (hay u v : String) (hsplit : v.data = u.data ++ (v.data.drop u.data.length))
    (h : strContains hay v = true) : strContains hay u = true := by
  unfold strContains at h ⊢
  rw [String.toList, hsplit] at h
  exact occursIn_of_append _ _ _ h

theorem map_update_id {rows : List FileRow} {fid : Nat} {f : FileRow → FileRow}
    (h : ∀ r ∈ rows, r.id ≠ fid) :
    rows.map (fun r => if r.id = fid then f r else r) = rows := by
  induction rows with
  | nil => rfl
  | cons r rs ih =>
    simp only [List.map_cons, List.mem_cons] at *
    rw [if_neg (h r (Or.inl rfl)), ih (fun x hx => h x (Or.inr hx))]

/-! ## Claim C1 -/

/-- C1: the claim says `update_file_metadata` validates the field name
against the FileRecord allow-list before constructing any storage
statement and rejects outside names.  The code does not: this theorem
evaluates the function at the failing input `field = "malicious_col"` —
a name outside the FileRecord field set — and shows the UPDATE statement
is still built by interpolating that name; the call only fails at
execution time (the engine error is caught and becomes `False`). -/
theorem C1_no_allowlist_validation :
    fileRecordFields.contains "malicious_col" = false ∧
    (update_file_metadata sampleDB 1 "malicious_col" "x").statement
      = "UPDATE files SET malicious_col=? WHERE id=?" ∧
    (update_file_metadata sampleDB 1 "malicious_col" "x").ok = false ∧
    (update_file_metadata sampleDB 1 "malicious_col" "x").db = sampleDB := by
  decide

/-! ## Claim C2 -/

/-- C2: inserting a record whose path is not present succeeds and returns
a positive identifier; inserting a second record with the same path then
returns the `None` sentinel and leaves the store (hence the original
record) unchanged. -/
theorem C2_insert_fresh_then_duplicate (db : VaultDB) (d d2 : FileData)
    (hpos : 1 ≤ db.nextId)
    (hfresh : ∀ r ∈ db.rows, r.path ≠ d.path)
    (hdup : d2.path = d.path) :
    (add_file_metadata db d).1 = some db.nextId ∧ 0 < db.nextId ∧
    (add_file_metadata (add_file_metadata db d).2 d2).1 = none ∧
    (add_file_metadata (add_file_metadata db d).2 d2).2 = (add_file_metadata db d).2 := by
  have hno : ¬ ∃ r ∈ db.rows, r.path = d.path := by
    rintro ⟨r, hr, he⟩
    exact hfresh r hr he
  have hadd : add_file_metadata db d =
      (some db.nextId,
       ⟨db.nextId + 1,
        db.rows ++ [⟨db.nextId, d.description, d.tags, d.status, d.content_type,
                     d.sensitivity, d.custom_fields, d.date_created, d.filename, d.path⟩]⟩) := by
    rw [add_file_metadata, if_neg hno]
  have hyes : ∃ r ∈ (add_file_metadata db d).2.rows, r.path = d2.path := by
    rw [hadd]
    exact ⟨_, List.mem_append_right _ (List.mem_singleton_self _), hdup.symm⟩
  refine ⟨by rw [hadd], hpos, ?_, ?_⟩
  · rw [add_file_metadata, if_pos hyes]
  · rw [add_file_metadata, if_pos hyes]

/-- C2 witness: the empty store, then the sample record twice. -/
theorem C2_witness :
    (add_file_metadata VaultDB.empty sampleData).1 = some 1 ∧ 0 < 1 ∧
    (add_file_metadata (add_file_metadata VaultDB.empty sampleData).2 sampleData2).1 = none ∧
    (add_file_metadata (add_file_metadata VaultDB.empty sampleData).2 sampleData2).2
      = (add_file_metadata VaultDB.empty sampleData).2 :=
  C2_insert_fresh_then_duplicate VaultDB.empty sampleData sampleData2
    (by decide) (by decide) (by decide)

/-! ## Claim C3 -/

/-- C3 counterexample: the empty store holds no record with identifier 1,
yet `update_file_metadata 1 "status" "archived"` returns the success value
`true` (SQLite updates zero rows without error), not the failure the claim
requires for an identifier that is not present. -/
theorem C3_counterexample :
    VaultDB.empty.rows.all (fun r => r.id != 1) = true ∧
    (update_file_metadata VaultDB.empty 1 "status" "archived").ok = true ∧
    (update_file_metadata VaultDB.empty 1 "status" "archived").db = VaultDB.empty := by
  decide

/-- C3 (amended): `update_file_metadata id "status" "archived"` updates
exactly the record with that identifier — its status becomes `"archived"`
with every other field untouched, and every other record is unchanged —
and for an identifier not present it creates no record and leaves the
store unchanged, but it returns `true` (success), not a failure result. -/
theorem C3_update_status_amended (db : VaultDB) (fid : Nat) :
    (update_file_metadata db fid "status" "archived").ok = true ∧
    (update_file_metadata db fid "status" "archived").db.rows
      = db.rows.map (fun r => if r.id = fid then { r with status := "archived" } else r) ∧
    (update_file_metadata db fid "status" "archived").db.nextId = db.nextId ∧
    ((∀ r ∈ db.rows, r.id ≠ fid) →
      (update_file_metadata db fid "status" "archived").db = db) := by
  refine ⟨rfl, rfl, rfl, fun h => ?_⟩
  cases db with
  | mk nextId rows =>
    have hmap := @map_update_id rows fid (fun r => setColumn r "status" "archived") h
    show (⟨nextId, rows.map _⟩ : VaultDB) = ⟨nextId, rows⟩
    rw [hmap]

/-- C3 amended witness: identifier 5 is absent from the sample store. -/
theorem C3_amended_witness :
    (update_file_metadata sampleDB 5 "status" "archived").db = sampleDB :=
  (C3_update_status_amended sampleDB 5).2.2.2 (by decide)

/-! ## Claim C4 -/

/-- C4: after inserting a record with a fresh path `P`, looking up by
`path = P` returns exactly one record, its fields are the inserted values,
its `date_created` is the (populated) inserted timestamp, and its
identifier is the one the insert returned (a non-null assignment). -/
theorem C4_insert_then_find (db : VaultDB) (d : FileData)
    (hfresh : ∀ r ∈ db.rows, r.path ≠ d.path)
    (hpath : d.path ≠ "")
    (hdate : d.date_created ≠ "") :
    (add_file_metadata db d).1 = some db.nextId ∧
    get_file_metadata (add_file_metadata db d).2 none (some d.path)
      = [⟨db.nextId, d.description, d.tags, d.status, d.content_type,
          d.sensitivity, d.custom_fields, d.date_created, d.filename, d.path⟩] ∧
    d.date_created ≠ "" := by
  have hno : ¬ ∃ r ∈ db.rows, r.path = d.path := by
    rintro ⟨r, hr, he⟩
    exact hfresh r hr he
  have hadd : add_file_metadata db d =
      (some db.nextId,
       ⟨db.nextId + 1,
        db.rows ++ [⟨db.nextId, d.description, d.tags, d.status, d.content_type,
                     d.sensitivity, d.custom_fields, d.date_created, d.filename, d.path⟩]⟩) := by
    rw [add_file_metadata, if_neg hno]
  refine ⟨by rw [hadd], ?_, hdate⟩
  rw [hadd]
  show get_file_metadata _ none (some d.path) = _
  rw [get_file_metadata]
  have htru : truthyStr (some d.path) = true := by
    simp [truthyStr, hpath]
  rw [if_pos htru]
  simp only [Option.getD_some, List.filter_append]
  have h1 : db.rows.filter (fun r => r.path == d.path) = [] := by
    rw [List.filter_eq_nil_iff]
    intro r hr
    simp [hfresh r hr]
  rw [h1]
  simp

/-- C4 witness: the sample record into the empty store. -/
theorem C4_witness :
    (add_file_metadata VaultDB.empty sampleData).1 = some 1 ∧
    get_file_metadata (add_file_metadata VaultDB.empty sampleData).2 none (some sampleData.path)
      = [⟨1, sampleData.description, sampleData.tags, sampleData.status,
          sampleData.content_type, sampleData.sensitivity, sampleData.custom_fields,
          sampleData.date_created, sampleData.filename, sampleData.path⟩] ∧
    sampleData.date_created ≠ "" :=
  C4_insert_then_find VaultDB.empty sampleData (by decide) (by decide) (by decide)

/-! ## Claim C5 -/

/-- C5: in `process_new_file` on an existing file, the store insert is
called if and only if the stripped, lowercased confirmation input is
`""`, `"y"` or `"yes"`; any other confirmation input cancels the
workflow, performs no insert and leaves the store unchanged. -/
theorem C5_confirmation_gate (db : VaultDB) (ctx : FileCtx) (ui : UserInputs)
    (hex : ctx.pathExists = true) :
    ((process_new_file db ctx ui).insertCalled = true ↔
      pyLower (pyStrip ui.confirm) ∈ (["", "y", "yes"] : List String)) ∧
    (pyLower (pyStrip ui.confirm) ∉ (["", "y", "yes"] : List String) →
      (process_new_file db ctx ui).db = db ∧
      (process_new_file db ctx ui).insertCalled = false ∧
      (process_new_file db ctx ui).cancelled = true) := by
  by_cases hc : pyLower (pyStrip ui.confirm) ∈ (["", "y", "yes"] : List String) <;>
    simp [process_new_file, hex, hc]

/-- C5 witness: answering `"n"` at the confirmation leaves the empty store
unchanged. -/
theorem C5_witness :
    (process_new_file VaultDB.empty sampleCtx sampleInputs).db = VaultDB.empty :=
  ((C5_confirmation_gate VaultDB.empty sampleCtx sampleInputs (by decide)).2 (by decide)).1

/-! ## Claim C6 -/

/-- C6: for a path that does not resolve to an existing file,
`process_new_file` reports the missing file and aborts with no store
mutation: the no-filter lookup over all records is identical before and
after the call. -/
theorem C6_missing_file_no_mutation (db : VaultDB) (ctx : FileCtx) (ui : UserInputs)
    (hmiss : ctx.pathExists = false) :
    (process_new_file db ctx ui).db = db ∧
    (process_new_file db ctx ui).missingReported = true ∧
    (process_new_file db ctx ui).insertCalled = false ∧
    get_file_metadata (process_new_file db ctx ui).db none none
      = get_file_metadata db none none := by
  simp [process_new_file, hmiss]

/-- C6 witness: the missing-file context on the sample store. -/
theorem C6_witness :
    (process_new_file sampleDB sampleCtxMissing sampleInputs).db = sampleDB :=
  (C6_missing_file_no_mutation sampleDB sampleCtxMissing sampleInputs (by decide)).1

/-! ## Analyzer projection lemmas -/

theorem analyze_pdf_tags (o : PdfOutcome) :
    (analyze_pdf o).suggested_tags = ["📄 PDF", "📋 Document"] := rfl

theorem analyze_pdf_category (o : PdfOutcome) :
    (analyze_pdf o).smart_category = "document_pdf" := by
  unfold analyze_pdf
  cases o with
  | importError => rfl
  | failed msg => rfl
  | ok mt pt => cases mt <;> cases pt <;> dsimp only [] <;> split_ifs <;> rfl

theorem analyze_docx_tags (o : DocxOutcome) :
    (analyze_docx o).suggested_tags = ["📄 Document", "💼 Business"] := rfl

theorem analyze_docx_category (o : DocxOutcome) :
    (analyze_docx o).smart_category = "document_docx" := by
  unfold analyze_docx
  cases o with
  | importError => rfl
  | failed msg => rfl
  | ok paragraphs => cases paragraphs <;> dsimp only [] <;> split_ifs <;> rfl

/-! ## Claim C7 -/

/-- C7: the filename keyword scan always runs at the end of
`analyze_file_content` and can overwrite the category/tags set by
type-specific extraction: whatever the extraction outcomes were, a
research/study/analysis match sets the research category and tags, else a
legal/contract/agreement match sets the legal ones, else a
business/plan/proposal match sets the business ones; in particular any
filename containing `legal_contract_v2.pdf` and no research-group keyword
yields category `legal_document` with tags `⚖️ Legal` and `📋 Official`,
regardless of the PDF extraction outcome. -/
theorem C7_keyword_priority (fi : FileInfo) (sizeBytes : Nat) (modified : String)
    (pdf : PdfOutcome) (docx : DocxOutcome) (text : TextOutcome) :
    (containsAny (pyLower fi.name) ["research", "study", "analysis"] = true →
      (analyze_file_content fi sizeBytes modified pdf docx text).smart_category
        = "research_document" ∧
      (analyze_file_content fi sizeBytes modified pdf docx text).suggested_tags
        = ["🔬 Research", "📊 Analysis"]) ∧
    (containsAny (pyLower fi.name) ["research", "study", "analysis"] = false →
      containsAny (pyLower fi.name) ["legal", "contract", "agreement"] = true →
      (analyze_file_content fi sizeBytes modified pdf docx text).smart_category
        = "legal_document" ∧
      (analyze_file_content fi sizeBytes modified pdf docx text).suggested_tags
        = ["⚖️ Legal", "📋 Official"]) ∧
    (containsAny (pyLower fi.name) ["research", "study", "analysis"] = false →
      containsAny (pyLower fi.name) ["legal", "contract", "agreement"] = false →
      containsAny (pyLower fi.name) ["business", "plan", "proposal"] = true →
      (analyze_file_content fi sizeBytes modified pdf docx text).smart_category
        = "business_document" ∧
      (analyze_file_content fi sizeBytes modified pdf docx text).suggested_tags
        = ["💼 Business", "🎯 Strategy"]) ∧
    (strContains (pyLower fi.name) "legal_contract_v2.pdf" = true →
      containsAny (pyLower fi.name) ["research", "study", "analysis"] = false →
      (analyze_file_content fi sizeBytes modified pdf docx text).smart_category
        = "legal_document" ∧
      "⚖️ Legal" ∈ (analyze_file_content fi sizeBytes modified pdf docx text).suggested_tags ∧
      "📋 Official" ∈ (analyze_file_content fi sizeBytes modified pdf docx text).suggested_tags) := by
  refine ⟨fun h1 => ?_, fun h1 h2 => ?_, fun h1 h2 h3 => ?_, fun hc h1 => ?_⟩
  · simp [analyze_file_content, h1]
  · simp [analyze_file_content, h1, h2]
  · simp [analyze_file_content, h1, h2, h3]
  · have hv : ("legal_contract_v2.pdf" : String).data
        = ("legal" : String).data
          ++ (("legal_contract_v2.pdf" : String).data.drop ("legal" : String).data.length) := by
      decide
    have hl : strContains (pyLower fi.name) "legal" = true :=
      strContains_of_prefix (pyLower fi.name) "legal" "legal_contract_v2.pdf" hv hc
    have h2 : containsAny (pyLower fi.name) ["legal", "contract", "agreement"] = true := by
      simp [containsAny, hl]
    simp [analyze_file_content, h1, h2]

/-- C7 witness: the file `legal_contract_v2.pdf` itself, with the PDF
library absent. -/
theorem C7_witness :
    (analyze_file_content ⟨"legal_contract_v2.pdf", ".pdf"⟩ 1536 "2026-01-01 00:00"
        .importError (.ok []) (.ok "")).smart_category = "legal_document" ∧
    "⚖️ Legal" ∈ (analyze_file_content ⟨"legal_contract_v2.pdf", ".pdf"⟩ 1536 "2026-01-01 00:00"
        .importError (.ok []) (.ok "")).suggested_tags ∧
    "📋 Official" ∈ (analyze_file_content ⟨"legal_contract_v2.pdf", ".pdf"⟩ 1536 "2026-01-01 00:00"
        .importError (.ok []) (.ok "")).suggested_tags :=
  (C7_keyword_priority ⟨"legal_contract_v2.pdf", ".pdf"⟩ 1536 "2026-01-01 00:00"
    .importError (.ok []) (.ok "")).2.2.2 (by decide) (by decide)

/-! ## Claim C8 -/

/-- C8 counterexample: on a file whose content starts with a blank line
followed by `# Report Title`, the code sets no detected title at all,
while the claim's "first non-blank line" rule (the spec-side definition)
yields `Report Title`. -/
theorem C8_counterexample :
    (analyze_text_file (.ok "\n# Report Title")).detected_title = "" ∧
    spec_detected_title "\n# Report Title" = "Report Title" := by
  decide

/-- C8 (amended): the analyzer reads up to 500 bytes and derives the
detected title from the first line only: a blank first line sets no
title; a non-blank first line starting with `#` yields the line with
every `#` character removed and re-stripped; any other non-blank first
line yields its first 70 characters; the preview is the first 250
characters, stripped, plus an ellipsis. -/
theorem C8_first_line_title_amended (content l0 : String) (rest : List String)
    (hsplit : pySplitChar '\n' content = l0 :: rest) :
    (pyStrip l0 = "" → (analyze_text_file (.ok content)).detected_title = "") ∧
    (pyStrip l0 ≠ "" → pyStartsWith (pyStrip l0) "#" = true →
      (analyze_text_file (.ok content)).detected_title
        = pyStrip (pyRemoveAll '#' (pyStrip l0))) ∧
    (pyStrip l0 ≠ "" → pyStartsWith (pyStrip l0) "#" = false →
      (analyze_text_file (.ok content)).detected_title = pyTake 70 (pyStrip l0)) ∧
    (analyze_text_file (.ok content)).content_preview
      = pyStrip (pyTake 250 content) ++ "..." := by
  refine ⟨fun h => ?_, fun h h2 => ?_, fun h h2 => ?_, ?_⟩
  · simp [analyze_text_file, hsplit, h]
  · simp [analyze_text_file, hsplit, h, h2]
  · simp [analyze_text_file, hsplit, h, h2]
  · simp [analyze_text_file, hsplit]

/-- C8 amended witness: a first line `# Report Title` yields the title
`Report Title`. -/
theorem C8_witness :
    (analyze_text_file (.ok "# Report Title\nbody")).detected_title = "Report Title" :=
  (C8_first_line_title_amended "# Report Title\nbody" "# Report Title" ["body"]
    (by decide)).2.1 (by decide) (by decide)

/-! ## Size-formatting lemmas -/

theorem pow2Div_ge (fuel : Nat) : ∀ n p, p ≤ pow2Div fuel n p := by
  induction fuel with
  | zero => intro n p; exact le_rfl
  | succ fuel ih =>
    intro n p
    show p ≤ if n < 9007199254740992 * p then p else pow2Div fuel n (2 * p)
    by_cases h : n < 9007199254740992 * p
    · rw [if_pos h]
    · rw [if_neg h]
      exact le_trans (by omega) (ih n (2 * p))

theorem pow2Div_low (fuel : Nat) :
    ∀ n p, pow2Div fuel n p = p ∨ 9007199254740992 * pow2Div fuel n p ≤ 2 * n := by
  induction fuel with
  | zero => intro n p; exact Or.inl rfl
  | succ fuel ih =>
    intro n p
    show (if n < 9007199254740992 * p then p else pow2Div fuel n (2 * p)) = p ∨
      9007199254740992 * (if n < 9007199254740992 * p then p else pow2Div fuel n (2 * p)) ≤ 2 * n
    by_cases h : n < 9007199254740992 * p
    · rw [if_pos h]; exact Or.inl rfl
    · rw [if_neg h]
      rcases ih n (2 * p) with h2 | h2
      · rw [h2]; right; omega
      · right; exact h2

theorem pow2Div_high (fuel : Nat) :
    ∀ n p, n < 9007199254740992 * p * 2 ^ fuel → n < 9007199254740992 * pow2Div fuel n p := by
  induction fuel with
  | zero => intro n p h; simpa using h
  | succ fuel ih =>
    intro n p h
    show n < 9007199254740992 * if n < 9007199254740992 * p then p else pow2Div fuel n (2 * p)
    by_cases hc : n < 9007199254740992 * p
    · rw [if_pos hc]; exact hc
    · rw [if_neg hc]
      apply ih
      have he : 9007199254740992 * p * 2 ^ (fuel + 1)
          = 9007199254740992 * (2 * p) * 2 ^ fuel := by ring
      omega

theorem roundMantissa_ge (q r p : Nat) : q ≤ roundMantissa q r p := by
  unfold roundMantissa
  split_ifs <;> omega

theorem floatOfNat_eq_of_lt (n : Nat) (h : n < 9007199254740992) : floatOfNat n = n := by
  have hp : pow2Div 1200 n 1 = 1 := by
    show (if n < 9007199254740992 * 1 then 1 else pow2Div 1199 n 2) = 1
    rw [if_pos (by omega)]
  show roundMantissa (n / pow2Div 1200 n 1) (n % pow2Div 1200 n 1) (pow2Div 1200 n 1)
      * pow2Div 1200 n 1 = n
  rw [hp]
  simp [roundMantissa, Nat.mod_one]

theorem floatOfNat_ge_pb (n : Nat) (h50 : 1125899906842624 ≤ n) (hov : n < 2 ^ 1023) :
    1125899906842624 ≤ floatOfNat n := by
  by_cases h53 : n < 9007199254740992
  · rw [floatOfNat_eq_of_lt n h53]; exact h50
  · have h53e : (9007199254740992 : Nat) = 2 ^ 53 := by norm_num
    have hb : (2 : Nat) ^ 1023 ≤ 9007199254740992 * 1 * 2 ^ 1200 := by
      rw [h53e, mul_one, ← pow_add]
      exact Nat.pow_le_pow_right (by omega) (by omega)
    have hup : n < 9007199254740992 * pow2Div 1200 n 1 :=
      pow2Div_high 1200 n 1 (lt_of_lt_of_le hov hb)
    have hge1 : 1 ≤ pow2Div 1200 n 1 := pow2Div_ge 1200 n 1
    have hlow := pow2Div_low 1200 n 1
    show 1125899906842624 ≤
      roundMantissa (n / pow2Div 1200 n 1) (n % pow2Div 1200 n 1) (pow2Div 1200 n 1)
        * pow2Div 1200 n 1
    have h52 : 4503599627370496 * pow2Div 1200 n 1 ≤ n := by
      rcases hlow with h1 | h1
      · rw [h1] at hup; omega
      · omega
    have hq : n / pow2Div 1200 n 1
        ≤ roundMantissa (n / pow2Div 1200 n 1) (n % pow2Div 1200 n 1) (pow2Div 1200 n 1) :=
      roundMantissa_ge _ _ _
    have hmul : n / pow2Div 1200 n 1 * pow2Div 1200 n 1
        ≤ roundMantissa (n / pow2Div 1200 n 1) (n % pow2Div 1200 n 1) (pow2Div 1200 n 1)
          * pow2Div 1200 n 1 :=
      Nat.mul_le_mul_right _ hq
    have hdm : n / pow2Div 1200 n 1 * pow2Div 1200 n 1 + n % pow2Div 1200 n 1 = n :=
      Nat.div_add_mod' n (pow2Div 1200 n 1)
    have hm : n % pow2Div 1200 n 1 < pow2Div 1200 n 1 := Nat.mod_lt n (by omega)
    revert hmul hdm hm h52 hge1
    generalize roundMantissa (n / pow2Div 1200 n 1) (n % pow2Div 1200 n 1) (pow2Div 1200 n 1)
      * pow2Div 1200 n 1 = B
    generalize n / pow2Div 1200 n 1 * pow2Div 1200 n 1 = A
    generalize n % pow2Div 1200 n 1 = m
    generalize pow2Div 1200 n 1 = p
    intro hge1 h52 hmul hdm hm
    omega

/-- At 9063494250083123 bytes the int-to-double conversion is a tie at 53
bits and rounds up to the even mantissa 9063494250083124, so the program
prints `8.1 PB` where exact integer arithmetic on the byte count would
print `8.0 PB`. -/
theorem hr_float_rounding_boundary :
    floatOfNat 9063494250083123 = 9063494250083124 ∧
    human_readable_size 9063494250083123 = "8.1 PB" ∧
    fmtOneDec 9063494250083123 1125899906842624 = "8.0" := by
  decide

theorem hr_unit_B (n : Nat) (h : n < 1024) :
    human_readable_size n = fmtOneDec n 1 ++ " B" := by
  unfold human_readable_size
  rw [if_pos h]

theorem hr_unit_KB (n : Nat) (h1 : 1024 ≤ n) (h2 : n < 1048576) :
    human_readable_size n = fmtOneDec n 1024 ++ " KB" := by
  unfold human_readable_size
  rw [if_neg (by omega : ¬ n < 1024), floatOfNat_eq_of_lt n (by omega)]
  show (if n < 1048576 then fmtOneDec n 1024 ++ " " ++ "KB"
    else hrLoop ["MB", "GB", "TB"] n 1048576) = fmtOneDec n 1024 ++ " KB"
  rw [if_pos (by omega : n < 1048576), String.append_assoc]
  rfl

theorem hr_unit_MB (n : Nat) (h1 : 1048576 ≤ n) (h2 : n < 1073741824) :
    human_readable_size n = fmtOneDec n 1048576 ++ " MB" := by
  unfold human_readable_size
  rw [if_neg (by omega : ¬ n < 1024), floatOfNat_eq_of_lt n (by omega)]
  show (if n < 1048576 then fmtOneDec n 1024 ++ " " ++ "KB"
    else hrLoop ["MB", "GB", "TB"] n 1048576) = fmtOneDec n 1048576 ++ " MB"
  rw [if_neg (by omega : ¬ n < 1048576)]
  show (if n < 1073741824 then fmtOneDec n 1048576 ++ " " ++ "MB"
    else hrLoop ["GB", "TB"] n 1073741824) = fmtOneDec n 1048576 ++ " MB"
  rw [if_pos (by omega : n < 1073741824), String.append_assoc]
  rfl

theorem hr_unit_GB (n : Nat) (h1 : 1073741824 ≤ n) (h2 : n < 1099511627776) :
    human_readable_size n = fmtOneDec n 1073741824 ++ " GB" := by
  unfold human_readable_size
  rw [if_neg (by omega : ¬ n < 1024), floatOfNat_eq_of_lt n (by omega)]
  show (if n < 1048576 then fmtOneDec n 1024 ++ " " ++ "KB"
    else hrLoop ["MB", "GB", "TB"] n 1048576) = fmtOneDec n 1073741824 ++ " GB"
  rw [if_neg (by omega : ¬ n < 1048576)]
  show (if n < 1073741824 then fmtOneDec n 1048576 ++ " " ++ "MB"
    else hrLoop ["GB", "TB"] n 1073741824) = fmtOneDec n 1073741824 ++ " GB"
  rw [if_neg (by omega : ¬ n < 1073741824)]
  show (if n < 1099511627776 then fmtOneDec n 1073741824 ++ " " ++ "GB"
    else hrLoop ["TB"] n 1099511627776) = fmtOneDec n 1073741824 ++ " GB"
  rw [if_pos (by omega : n < 1099511627776), String.append_assoc]
  rfl

theorem hr_unit_TB (n : Nat) (h1 : 1099511627776 ≤ n) (h2 : n < 1125899906842624) :
    human_readable_size n = fmtOneDec n 1099511627776 ++ " TB" := by
  unfold human_readable_size
  rw [if_neg (by omega : ¬ n < 1024), floatOfNat_eq_of_lt n (by omega)]
  show (if n < 1048576 then fmtOneDec n 1024 ++ " " ++ "KB"
    else hrLoop ["MB", "GB", "TB"] n 1048576) = fmtOneDec n 1099511627776 ++ " TB"
  rw [if_neg (by omega : ¬ n < 1048576)]
  show (if n < 1073741824 then fmtOneDec n 1048576 ++ " " ++ "MB"
    else hrLoop ["GB", "TB"] n 1073741824) = fmtOneDec n 1099511627776 ++ " TB"
  rw [if_neg (by omega : ¬ n < 1073741824)]
  show (if n < 1099511627776 then fmtOneDec n 1073741824 ++ " " ++ "GB"
    else hrLoop ["TB"] n 1099511627776) = fmtOneDec n 1099511627776 ++ " TB"
  rw [if_neg (by omega : ¬ n < 1099511627776)]
  show (if n < 1125899906842624 then fmtOneDec n 1099511627776 ++ " " ++ "TB"
    else hrLoop [] n 1125899906842624) = fmtOneDec n 1099511627776 ++ " TB"
  rw [if_pos (by omega : n < 1125899906842624), String.append_assoc]
  rfl

theorem hr_unit_PB (n : Nat) (h1 : 1125899906842624 ≤ n) (hov : n < 2 ^ 1023) :
    human_readable_size n = fmtOneDec (floatOfNat n) 1125899906842624 ++ " PB" := by
  have hge := floatOfNat_ge_pb n h1 hov
  unfold human_readable_size
  rw [if_neg (by omega : ¬ n < 1024)]
  revert hge
  generalize floatOfNat n = m
  intro hge
  show (if m < 1048576 then fmtOneDec m 1024 ++ " " ++ "KB"
    else hrLoop ["MB", "GB", "TB"] m 1048576) = fmtOneDec m 1125899906842624 ++ " PB"
  rw [if_neg (by omega : ¬ m < 1048576)]
  show (if m < 1073741824 then fmtOneDec m 1048576 ++ " " ++ "MB"
    else hrLoop ["GB", "TB"] m 1073741824) = fmtOneDec m 1125899906842624 ++ " PB"
  rw [if_neg (by omega : ¬ m < 1073741824)]
  show (if m < 1099511627776 then fmtOneDec m 1073741824 ++ " " ++ "GB"
    else hrLoop ["TB"] m 1099511627776) = fmtOneDec m 1125899906842624 ++ " PB"
  rw [if_neg (by omega : ¬ m < 1099511627776)]
  show (if m < 1125899906842624 then fmtOneDec m 1099511627776 ++ " " ++ "TB"
    else hrLoop [] m 1125899906842624) = fmtOneDec m 1125899906842624 ++ " PB"
  rw [if_neg (by omega : ¬ m < 1125899906842624)]
  rfl

/-! ## Claim C9 -/

/-- C9: `human_readable_size` divides by 1024 per step until the value is
below 1024 (PB as the last resort), renders one decimal place, and in
particular maps 0 to `0.0 B`, 1024 to `1.0 KB`, 1048576 to `1.0 MB`, and
1536 to `1.5 KB`.  In the B through TB ranges (all below `2^53`) the
int-to-double conversion is exact, so the rendered decimal is that of the
byte count itself; in the PB range the rendered decimal is that of the
converted double `floatOfNat n`, for counts inside the double range
(beyond it Python's conversion raises `OverflowError`). -/
theorem C9_human_readable_size :
    human_readable_size 0 = "0.0 B" ∧
    human_readable_size 1024 = "1.0 KB" ∧
    human_readable_size 1048576 = "1.0 MB" ∧
    human_readable_size 1536 = "1.5 KB" ∧
    ∀ n : Nat,
      (n < 1024 → human_readable_size n = fmtOneDec n 1 ++ " B") ∧
      (1024 ≤ n → n < 1048576 → human_readable_size n = fmtOneDec n 1024 ++ " KB") ∧
      (1048576 ≤ n → n < 1073741824 →
        human_readable_size n = fmtOneDec n 1048576 ++ " MB") ∧
      (1073741824 ≤ n → n < 1099511627776 →
        human_readable_size n = fmtOneDec n 1073741824 ++ " GB") ∧
      (1099511627776 ≤ n → n < 1125899906842624 →
        human_readable_size n = fmtOneDec n 1099511627776 ++ " TB") ∧
      (1125899906842624 ≤ n → n < 2 ^ 1023 →
        human_readable_size n = fmtOneDec (floatOfNat n) 1125899906842624 ++ " PB") :=
  ⟨by decide, by decide, by decide, by decide, fun n =>
    ⟨hr_unit_B n, hr_unit_KB n, hr_unit_MB n, hr_unit_GB n, hr_unit_TB n, hr_unit_PB n⟩⟩

/-- C9 witness: 2048 bytes land in the KB range. -/
theorem C9_witness :
    human_readable_size 2048 = fmtOneDec 2048 1024 ++ " KB" :=
  (C9_human_readable_size.2.2.2.2 2048).2.1 (by decide) (by decide)

/-! ## Claim C10 -/

/-- C10: for a `.pdf` file whose filename matches no keyword group,
`analyze_file_content` returns category `document_pdf` with tags
`📄 PDF`, `📋 Document` for every PDF extraction outcome (library absent,
extraction failed, or success); likewise a `.docx`/`.doc` file gets
`document_docx` with tags `📄 Document`, `💼 Business`. -/
theorem C10_pdf_docx_defaults (fi : FileInfo) (sizeBytes : Nat) (modified : String)
    (pdf : PdfOutcome) (docx : DocxOutcome) (text : TextOutcome)
    (h1 : containsAny (pyLower fi.name) ["research", "study", "analysis"] = false)
    (h2 : containsAny (pyLower fi.name) ["legal", "contract", "agreement"] = false)
    (h3 : containsAny (pyLower fi.name) ["business", "plan", "proposal"] = false) :
    (pyLower fi.suffix = ".pdf" →
      (analyze_file_content fi sizeBytes modified pdf docx text).smart_category
        = "document_pdf" ∧
      (analyze_file_content fi sizeBytes modified pdf docx text).suggested_tags
        = ["📄 PDF", "📋 Document"]) ∧
    (pyLower fi.suffix = ".docx" ∨ pyLower fi.suffix = ".doc" →
      (analyze_file_content fi sizeBytes modified pdf docx text).smart_category
        = "document_docx" ∧
      (analyze_file_content fi sizeBytes modified pdf docx text).suggested_tags
        = ["📄 Document", "💼 Business"]) := by
  constructor
  · intro hext
    simp [analyze_file_content, hext, h1, h2, h3, analyze_pdf_category pdf,
      analyze_pdf_tags pdf]
  · rintro (hext | hext) <;>
      simp [analyze_file_content, hext, h1, h2, h3, analyze_docx_category docx,
        analyze_docx_tags docx]

/-- C10 witness: `file.pdf`, no keyword match, library absent. -/
theorem C10_witness :
    (analyze_file_content ⟨"file.pdf", ".pdf"⟩ 1 "2026-01-01 00:00"
        .importError (.ok []) (.ok "")).smart_category = "document_pdf" ∧
    (analyze_file_content ⟨"file.pdf", ".pdf"⟩ 1 "2026-01-01 00:00"
        .importError (.ok []) (.ok "")).suggested_tags = ["📄 PDF", "📋 Document"] :=
  (C10_pdf_docx_defaults ⟨"file.pdf", ".pdf"⟩ 1 "2026-01-01 00:00"
    .importError (.ok []) (.ok "") (by decide) (by decide) (by decide)).1 (by decide)

end Vault
